import Mathlib

/-
Shallow embedding of the HealthShield heat-risk engine
(src/services/core/app.py) over the reals, together with proofs of the
specification claims.  Python floats are modelled as real numbers,
Python ints as integers (or naturals for POSIX timestamps), and the
untyped dicts holding profile/state as structures with optional fields
mirroring the dict.get defaulting of the source.
-/

namespace HeatShield

noncomputable section

/-- Risk buckets, mirroring the strings "Green" | "Yellow" | "Orange" | "Red". -/
inductive Bucket
  | green
  | yellow
  | orange
  | red
deriving DecidableEq

/-- Severity rank of a bucket (used to express monotonicity of the classifier). -/
def severity : Bucket → ℕ
  | .green => 0
  | .yellow => 1
  | .orange => 2
  | .red => 3

/-- Celsius to Fahrenheit conversion, app.py line 16. -/
def c_to_f (c : ℝ) : ℝ := c * 9 / 5 + 32

/-- Steadman-style heat index polynomial, app.py lines 18-22. -/
def heat_index_f (T_f RH : ℝ) : ℝ :=
  let T := T_f;
  let R := RH;
  -42.379 + 2.04901523*T + 10.14333127*R
    - 0.22475541*T*R - 6.83783e-3*T*T - 5.481717e-2*R*R
    + 1.22874e-3*T*T*R + 8.5282e-4*T*R*R - 1.99e-6*T*T*R*R

/-- Risk classifier, app.py lines 24-28 (inclusive lower bounds, top-down). -/
def bucket_from_hi (h : ℝ) : Bucket :=
  if 125 ≤ h then .red
  else if 103 ≤ h then .orange
  else if 90 ≤ h then .yellow
  else .green

/-- Recommended break delay per bucket, app.py lines 30-33. -/
def next_break_eta (bucket : Bucket) : ℕ :=
  if bucket = .red then 0
  else if bucket = .orange then 12
  else 30

/-- Clothing factor lookup with default 0.6 for unknown values, app.py lines 86-87. -/
def clothing_factor (clothing : String) : ℝ :=
  if clothing = "light" then 0
  else if clothing = "normal" then 0.6
  else if clothing = "heavy" then 1
  else 0.6

/-- Local clock hour of a POSIX timestamp: `datetime.fromtimestamp(ts).hour`
under the UTC clock of the runtime (app.py line 94). -/
def clock_hour (ts : ℕ) : ℕ := ts / 3600 % 24

/-- Solar intensity curve, app.py lines 89-100.  The Python shift
`(hour - 4) % 24` on an hour in 0..23 equals `(hour + 20) % 24`. -/
def solar_intensity_factor (ts_local : ℕ) (in_shade : Bool) : ℝ :=
  let hour := clock_hour ts_local
  let hour := (hour + 20) % 24
  let peak : ℝ := 13
  let width : ℝ := 6
  let val := max 0 (1 - |(hour : ℝ) - peak| / (width / 2))
  let val := if in_shade then val * 0.3 else val
  min 1 (max 0 val)

/-- The "coeff" sub-dict of a profile (app.py lines 74-83); each weight is
optional and read back with the dict.get default of the source. -/
structure Coeffs where
  k_solar : Option ℝ := none
  k_wind : Option ℝ := none
  k_exertion : Option ℝ := none
  k_acclim : Option ℝ := none
  k_clothing : Option ℝ := none
  k_duration : Option ℝ := none
  k_thermal : Option ℝ := none
  k_dehyd : Option ℝ := none

/-- A user profile dict; optional fields mirror dict.get defaulting. -/
structure UserProfile where
  exertion_default : Option ℤ := none
  acclim_days : Option ℤ := none
  clothing : Option String := none
  wind_mps : Option ℝ := none
  coeff : Option Coeffs := none

/-- The default profile, app.py lines 67-84. -/
def default_profile : UserProfile where
  exertion_default := some 2
  acclim_days := some 0
  clothing := some "normal"
  wind_mps := some 1
  coeff := some
    { k_solar := some 6
      k_wind := some 4
      k_exertion := some 3
      k_acclim := some (-2)
      k_clothing := some 2
      k_duration := some 2
      k_thermal := some 2
      k_dehyd := some 1 }

/-- The per-user state dict; a fresh user starts from the empty dict, i.e.
every field none. -/
structure UserState where
  in_shade : Option Bool := none
  exertion_level : Option ℤ := none
  duration_load : Option ℝ := none
  thermal_load : Option ℝ := none
  last_update_ts : Option ℕ := none
  since_hydration_min : Option ℤ := none
  last_bucket : Option Bucket := none
  last_nudge_ts : Option ℕ := none
  updated_at : Option ℕ := none
  hi_nowcast_f : Option ℝ := none
  risk_bucket : Option Bucket := none
  next_break_eta_min : Option ℕ := none

/-- Personalization model, app.py lines 102-129. -/
def personalized_hi (hi_base_f : ℝ) (ts : ℕ) (profile : UserProfile)
    (state : UserState) : ℝ :=
  let c := profile.coeff.getD {}
  let k_solar := c.k_solar.getD 6
  let k_wind := c.k_wind.getD 4
  let k_exertion := c.k_exertion.getD 3
  let k_acclim := c.k_acclim.getD (-2)
  let k_clo := c.k_clothing.getD 2
  let in_shade := state.in_shade.getD false
  let exertion := state.exertion_level.getD (profile.exertion_default.getD 2)
  let acclim := profile.acclim_days.getD 0
  let wind := profile.wind_mps.getD 1
  let clo_idx := clothing_factor (profile.clothing.getD "normal")
  let solar := solar_intensity_factor ts in_shade
  let wind_norm := min (max wind 0) 4 / 4
  let exertion_norm := ((max 1 (min exertion 5) - 2 : ℤ) : ℝ) / 3
  let acclim_norm := ((min (max acclim 0) 14 : ℤ) : ℝ) / 14
  let clo_norm := clo_idx
  let delta_f :=
    k_solar * solar
      - k_wind * wind_norm
      + k_exertion * exertion_norm
      + k_acclim * acclim_norm
      + k_clo * clo_norm
  hi_base_f + delta_f

/-- First-order exponential smoothing step, app.py lines 132-136. -/
def smooth (prev x dt_s tau_s : ℝ) : ℝ :=
  let tau := max 1 tau_s
  let dt := max 0 dt_s
  let alpha := 1 - Real.exp (-dt / tau)
  prev + alpha * (x - prev)

/-- Python round-half-to-even of a real to an integer (the tie rule of the
built-in round). -/
def round_half_even (x : ℝ) : ℤ :=
  if Int.fract x = 1 / 2 then (if Even ⌊x⌋ then ⌊x⌋ else ⌊x⌋ + 1) else round x

/-- Python round(x, n): banker's rounding at n decimal places. -/
def round_dp (n : ℕ) (x : ℝ) : ℝ :=
  (round_half_even (x * 10 ^ n) : ℝ) / 10 ^ n

/-- Cumulative load tracker, app.py lines 138-169.  The Python function
mutates the state dict and returns the triple; here the updated state is
returned alongside it. -/
def update_cumulative_loads (state : UserState) (ts_now : ℕ) (hi_base_f : ℝ)
    (exertion_level : ℤ) (in_shade : Bool) (wind_mps : ℝ) :
    UserState × ℝ × ℝ × ℤ :=
  let last_ts := state.last_update_ts.getD ts_now
  let dt : ℤ := max 1 (min ((ts_now : ℤ) - (last_ts : ℤ)) 300)
  let e_norm : ℝ := max 0 (((exertion_level : ℝ) - 2) / 3)
  let t_norm : ℝ := max 0 ((hi_base_f - 95) / 30)
  let wind_norm := min (max wind_mps 0) 4 / 4
  let shade_norm : ℝ := if in_shade then 1 else 0
  let speedup := 1 + 0.6 * shade_norm + 0.4 * wind_norm
  let TAU_DUR := 10 * 60 / speedup
  let TAU_TH := 20 * 60 / speedup
  let duration_prev := state.duration_load.getD 0
  let thermal_prev := state.thermal_load.getD 0
  let duration_load := smooth duration_prev e_norm (dt : ℝ) TAU_DUR
  let thermal_load := smooth thermal_prev t_norm (dt : ℝ) TAU_TH
  let since_hyd := state.since_hydration_min.getD 0 + dt / 60
  let state1 :=
    { state with
      duration_load := some (round_dp 4 (max 0 (min 1 duration_load)))
      thermal_load := some (round_dp 4 (max 0 (min 1 thermal_load)))
      last_update_ts := some ts_now
      since_hydration_min := some since_hyd }
  (state1, (state1.duration_load.getD 0), (state1.thermal_load.getD 0), since_hyd)

/-- The SNS publish collaborator: raises on failure (modelled by the flag). -/
def sns_publish (publish_fails : Bool) : Except String Unit :=
  if publish_fails then .error "publish failed" else .ok ()

/-- Nudge gate, app.py lines 172-189.  `sns_up` models the global sns handle
being configured, `wall_now` the int(time.time()) call; the returned flag
records whether a publish succeeded.  A publish error is caught: the state
comes back without the last_nudge_ts stamp and nothing propagates. -/
def maybe_send_nudge (new_bucket : Bucket) (state_now : UserState)
    (wall_now : ℕ) (sns_up publish_fails : Bool) : UserState × Bool :=
  if ¬ sns_up then (state_now, false)
  else if ¬ (new_bucket = .orange ∨ new_bucket = .red) then (state_now, false)
  else
    let last_bucket := state_now.last_bucket
    let last_nudge := state_now.last_nudge_ts.getD 0
    if last_bucket = some new_bucket ∧ (wall_now : ℤ) - (last_nudge : ℤ) < 600 then
      (state_now, false)
    else
      match sns_publish publish_fails with
      | .ok _ => ({ state_now with last_nudge_ts := some wall_now }, true)
      | .error _ => (state_now, false)

/-- The pre-clamp effective index of handle_iot (app.py lines 203-229):
personalized index plus the cumulative duration, thermal and dehydration
penalties, before the final clamp of line 232. -/
def hi_eff_raw (ts : ℕ) (temp_c rh : ℝ) (state0 : UserState)
    (prof : UserProfile) : ℝ :=
  let temp_f := c_to_f temp_c
  let hi := heat_index_f temp_f rh
  let coeff := prof.coeff.getD {}
  let in_shade := state0.in_shade.getD false
  let exertion := state0.exertion_level.getD (prof.exertion_default.getD 2)
  let wind := prof.wind_mps.getD 1
  let r := update_cumulative_loads state0 ts hi exertion in_shade wind
  let hi_eff0 := personalized_hi hi ts prof r.1
  let k_dur := coeff.k_duration.getD 2
  let k_th := coeff.k_thermal.getD 2
  let k_dehyd := coeff.k_dehyd.getD 1
  let H := min 1 ((r.2.2.2 : ℝ) / 60)
  hi_eff0 + k_dur * r.2.1 + k_th * r.2.2.1 + k_dehyd * H

/-- The alerting tail of handle_iot (app.py lines 239-248): the state
write-back stamps last_bucket with the NEW bucket, and only then does the
gate run on that state. -/
def assess_step (st : UserState) (bucket : Bucket) (wall_now : ℕ)
    (sns_up publish_fails : Bool) : UserState × Bool :=
  let st2 :=
    { st with
      risk_bucket := some bucket
      next_break_eta_min := some (next_break_eta bucket)
      last_bucket := some bucket }
  maybe_send_nudge bucket st2 wall_now sns_up publish_fails

/-- Result of one ingest event: the derived indices persisted with the
reading, the classification, the persisted user state and whether a nudge
was published. -/
structure IotResult where
  hi : ℝ
  hi_eff : ℝ
  bucket : Bucket
  eta : ℕ
  state : UserState
  nudged : Bool

/-- The sensor-ingest handler core, app.py lines 192-250, with the storage
collaborators factored out: the caller supplies the fetched state and
profile and receives the state that put_user_state persists. -/
def handle_iot (ts : ℕ) (temp_c rh : ℝ) (state0 : UserState)
    (prof : UserProfile) (wall_now : ℕ) (sns_up publish_fails : Bool) :
    IotResult :=
  let temp_f := c_to_f temp_c
  let hi := heat_index_f temp_f rh
  let in_shade := state0.in_shade.getD false
  let exertion := state0.exertion_level.getD (prof.exertion_default.getD 2)
  let wind := prof.wind_mps.getD 1
  let state1 := (update_cumulative_loads state0 ts hi exertion in_shade wind).1
  let hi_eff := max temp_f (min (hi + 12) (hi_eff_raw ts temp_c rh state0 prof))
  let bucket := bucket_from_hi hi_eff
  let eta := next_break_eta bucket
  let state1a := { state1 with updated_at := some ts, hi_nowcast_f := some (round_dp 3 hi_eff) }
  let r2 := assess_step state1a bucket wall_now sns_up publish_fails
  { hi := hi, hi_eff := hi_eff, bucket := bucket, eta := eta,
    state := r2.1, nudged := r2.2 }

/-- A run of assessment tails: one (bucket, time) pair per processed sample,
with the publish collaborator configured and succeeding; returns the
per-sample nudge flags. -/
def assess_trace (st : UserState) : List (Bucket × ℕ) → List Bool
  | [] => []
  | (b, t) :: rest =>
      let r := assess_step st b t true false
      r.2 :: assess_trace r.1 rest

/-- A run of cumulative-load updates: one argument tuple per call. -/
def run_updates (st : UserState) :
    List (ℕ × ℝ × ℤ × Bool × ℝ) → UserState
  | [] => st
  | (ts, hi, ex, sh, w) :: rest =>
      run_updates (update_cumulative_loads st ts hi ex sh w).1 rest

/-- The POST /profile body merge, app.py line 298: prof.update applies
every body entry whose key is not "user_id".  Dicts are modelled as
partial maps from keys to values, the request body as its entry list. -/
def profile_post_merge {V : Type} (prof : String → Option V)
    (body : List (String × V)) : String → Option V :=
  body.foldl
    (fun p kv =>
      if kv.1 = "user_id" then p
      else fun k => if k = kv.1 then some kv.2 else p k)
    prof

end

/-! Helper lemmas about the banker's rounding used for load persistence. -/

lemma floor_le_round_half_even (x : ℝ) : ⌊x⌋ ≤ round_half_even x := by
  unfold round_half_even
  split_ifs with h h2
  · exact le_refl _
  · exact le_of_lt (lt_add_one _)
  · rw [round_eq]
    exact Int.floor_le_floor (by linarith)

lemma round_half_even_le_ceil (x : ℝ) : round_half_even x ≤ ⌈x⌉ := by
  unfold round_half_even
  have hcl : x ≤ (⌈x⌉ : ℝ) := Int.le_ceil x
  split_ifs with h h2
  · exact Int.floor_le_ceil x
  · have hx : (⌊x⌋ : ℝ) < x := by
      have hfr : x - ⌊x⌋ = 1 / 2 := by rw [Int.self_sub_floor, h]
      linarith
    have : (⌊x⌋ : ℝ) < (⌈x⌉ : ℝ) := lt_of_lt_of_le hx hcl
    exact_mod_cast this
  · rw [round_eq]
    exact Int.floor_le_iff.mpr (by linarith)

lemma round_half_even_nonneg {x : ℝ} (h : 0 ≤ x) : 0 ≤ round_half_even x :=
  le_trans (Int.le_floor.mpr (by exact_mod_cast h)) (floor_le_round_half_even x)

lemma round_dp_nonneg (n : ℕ) {x : ℝ} (h : 0 ≤ x) : 0 ≤ round_dp n x := by
  unfold round_dp
  have h1 : (0 : ℤ) ≤ round_half_even (x * 10 ^ n) :=
    round_half_even_nonneg (by positivity)
  have h2 : (0 : ℝ) ≤ (round_half_even (x * 10 ^ n) : ℝ) := by exact_mod_cast h1
  positivity

lemma round_dp_le_one (n : ℕ) {x : ℝ} (h : x ≤ 1) : round_dp n x ≤ 1 := by
  unfold round_dp
  have hp : (0 : ℝ) < 10 ^ n := by positivity
  have h1 : round_half_even (x * 10 ^ n) ≤ ⌈x * 10 ^ n⌉ :=
    round_half_even_le_ceil _
  have h2 : ⌈x * 10 ^ n⌉ ≤ (10 ^ n : ℤ) := by
    rw [Int.ceil_le]
    push_cast
    nlinarith
  have h3 : (round_half_even (x * 10 ^ n) : ℝ) ≤ (10 ^ n : ℝ) := by
    exact_mod_cast le_trans h1 h2
  rw [div_le_one hp]
  exact h3

/-! The claim theorems. -/

/-- C6: the risk classifier uses inclusive lower-bound thresholds evaluated
top-down (≥125 Red/0 min, ≥103 Orange/12 min, ≥90 Yellow/30 min, else
Green/30 min), takes the documented boundary values, and its bucket is
monotone non-decreasing in severity as the index grows. -/
theorem bucket_thresholds_and_monotone :
    (∀ h : ℝ,
      (125 ≤ h → bucket_from_hi h = .red ∧ next_break_eta (bucket_from_hi h) = 0) ∧
      (103 ≤ h → h < 125 →
        bucket_from_hi h = .orange ∧ next_break_eta (bucket_from_hi h) = 12) ∧
      (90 ≤ h → h < 103 →
        bucket_from_hi h = .yellow ∧ next_break_eta (bucket_from_hi h) = 30) ∧
      (h < 90 → bucket_from_hi h = .green ∧ next_break_eta (bucket_from_hi h) = 30)) ∧
    bucket_from_hi 89.99 = .green ∧ bucket_from_hi 90 = .yellow ∧
    bucket_from_hi 102.99 = .yellow ∧ bucket_from_hi 103 = .orange ∧
    bucket_from_hi 124.99 = .orange ∧ bucket_from_hi 125 = .red ∧
    ∀ h1 h2 : ℝ, h1 ≤ h2 →
      severity (bucket_from_hi h1) ≤ severity (bucket_from_hi h2) := by
  have hred : ∀ h : ℝ, 125 ≤ h → bucket_from_hi h = .red := by
    intro h hh
    unfold bucket_from_hi
    rw [if_pos hh]
  have horange : ∀ h : ℝ, 103 ≤ h → h < 125 → bucket_from_hi h = .orange := by
    intro h h1 h2
    unfold bucket_from_hi
    rw [if_neg (by linarith), if_pos h1]
  have hyellow : ∀ h : ℝ, 90 ≤ h → h < 103 → bucket_from_hi h = .yellow := by
    intro h h1 h2
    unfold bucket_from_hi
    rw [if_neg (by linarith), if_neg (by linarith), if_pos h1]
  have hgreen : ∀ h : ℝ, h < 90 → bucket_from_hi h = .green := by
    intro h h1
    unfold bucket_from_hi
    rw [if_neg (by linarith), if_neg (by linarith), if_neg (by linarith)]
  refine ⟨?_, hgreen _ (by norm_num), hyellow _ (by norm_num) (by norm_num),
    hyellow _ (by norm_num) (by norm_num), horange _ (by norm_num) (by norm_num),
    horange _ (by norm_num) (by norm_num), hred _ (by norm_num), ?_⟩
  · intro h
    refine ⟨fun h1 => ⟨hred h h1, ?_⟩, fun h1 h2 => ⟨horange h h1 h2, ?_⟩,
      fun h1 h2 => ⟨hyellow h h1 h2, ?_⟩, fun h1 => ⟨hgreen h h1, ?_⟩⟩
    · rw [hred h h1]; rfl
    · rw [horange h h1 h2]; rfl
    · rw [hyellow h h1 h2]; rfl
    · rw [hgreen h h1]; rfl
  · intro h1 h2 hle
    unfold bucket_from_hi
    split_ifs <;> simp [severity] <;> linarith

/-- Witness for C6 at concrete indices. -/
theorem bucket_thresholds_witness :
    (bucket_from_hi 130 = .red ∧ next_break_eta (bucket_from_hi 130) = 0) ∧
    severity (bucket_from_hi 95) ≤ severity (bucket_from_hi 104) :=
  ⟨(bucket_thresholds_and_monotone.1 130).1 (by norm_num),
    bucket_thresholds_and_monotone.2.2.2.2.2.2.2 95 104 (by norm_num)⟩

/-- C10: the solar model is an hourly step function of the local clock hour,
taking only the values 0, 1/3, 2/3, 1, scaled by 0.3 when in shade. -/
theorem solar_hourly_step_values :
    ∀ (ts1 ts2 : ℕ) (shade : Bool),
      (clock_hour ts1 = clock_hour ts2 →
        solar_intensity_factor ts1 shade = solar_intensity_factor ts2 shade) ∧
      ∃ v : ℝ, (v = 0 ∨ v = 1 / 3 ∨ v = 2 / 3 ∨ v = 1) ∧
        solar_intensity_factor ts1 shade = (if shade then (0.3 : ℝ) else 1) * v := by
  intro ts1 ts2 shade
  constructor
  · intro h
    unfold solar_intensity_factor
    rw [h]
  · have hlt : (clock_hour ts1 + 20) % 24 < 24 := Nat.mod_lt _ (by norm_num)
    simp only [solar_intensity_factor]
    generalize hg : (clock_hour ts1 + 20) % 24 = n
    rw [hg] at hlt
    cases shade <;>
      (interval_cases n <;>
        first
          | (refine ⟨0, by norm_num, ?_⟩
             norm_num [abs_of_nonpos, abs_of_nonneg]
             done)
          | (refine ⟨1 / 3, by norm_num, ?_⟩
             norm_num [abs_of_nonpos, abs_of_nonneg]
             done)
          | (refine ⟨2 / 3, by norm_num, ?_⟩
             norm_num [abs_of_nonpos, abs_of_nonneg]
             done)
          | (refine ⟨1, by norm_num, ?_⟩
             norm_num [abs_of_nonpos, abs_of_nonneg]
             done))

/-- Witness for C10: two timestamps in the same clock hour, and the value
form at the first. -/
theorem solar_hourly_step_values_witness :
    solar_intensity_factor 3600 false = solar_intensity_factor 3700 false ∧
    ∃ v : ℝ, (v = 0 ∨ v = 1 / 3 ∨ v = 2 / 3 ∨ v = 1) ∧
      solar_intensity_factor 3600 false = (if false then (0.3 : ℝ) else 1) * v :=
  ⟨(solar_hourly_step_values 3600 3700 false).1 (by decide),
    (solar_hourly_step_values 3600 3700 false).2⟩

/-! C9: the POST /profile merge. -/

lemma profile_post_merge_frame {V : Type} :
    ∀ (body : List (String × V)) (prof : String → Option V) (k : String),
      k = "user_id" ∨ k ∉ body.map Prod.fst →
      profile_post_merge prof body k = prof k := by
  intro body
  induction body with
  | nil => intro prof k _; rfl
  | cons kv rest ih =>
    intro prof k hk
    have hk' : k = "user_id" ∨ k ∉ rest.map Prod.fst := by
      rcases hk with h | h
      · exact Or.inl h
      · exact Or.inr fun hm => h (by simp [hm])
    show profile_post_merge
        (if kv.1 = "user_id" then prof
         else fun k2 => if k2 = kv.1 then some kv.2 else prof k2) rest k = prof k
    rw [ih _ k hk']
    split_ifs with h1
    · rfl
    · simp only []
      rw [if_neg ?_]
      rcases hk with h | h
      · intro he
        exact h1 (he ▸ h)
      · intro he
        exact h (by simp [he])

/-- C9 amended: the merge applies every body entry except a "user_id" key
(later entries winning), and leaves every key not named in the body, as
well as "user_id" itself, unchanged. -/
theorem profile_post_merge_spec {V : Type} (prof : String → Option V) (k : String) :
    (∀ body : List (String × V),
      k = "user_id" ∨ k ∉ body.map Prod.fst →
      profile_post_merge prof body k = prof k) ∧
    (∀ (l1 l2 : List (String × V)) (v : V),
      k ≠ "user_id" → k ∉ l2.map Prod.fst →
      profile_post_merge prof (l1 ++ (k, v) :: l2) k = some v) := by
  constructor
  · intro body h
    exact profile_post_merge_frame body prof k h
  · intro l1 l2 v hk hl2
    show List.foldl _ prof (l1 ++ (k, v) :: l2) k = some v
    rw [List.foldl_append]
    show profile_post_merge
        (if (k, v).1 = "user_id" then List.foldl _ prof l1
         else fun k2 => if k2 = (k, v).1 then some (k, v).2
              else List.foldl _ prof l1 k2) l2 k = some v
    rw [profile_post_merge_frame l2 _ k (Or.inr hl2)]
    rw [if_neg hk]
    simp

/-- C9 counterexample: an unrecognized key in the update body is stored. -/
theorem profile_post_stores_unrecognized_key :
    profile_post_merge (V := ℕ) (fun _ => none) [("hobby", 7)] "hobby" = some 7 := by
  simp [profile_post_merge]

/-- Witness for C9 at concrete dicts. -/
theorem profile_post_merge_spec_witness :
    profile_post_merge (V := ℕ) (fun _ => none) [("acclim_days", 3)] "clothing" = none ∧
    profile_post_merge (V := ℕ) (fun _ => none) [("clothing", 2)] "clothing" = some 2 :=
  ⟨(profile_post_merge_spec (V := ℕ) (fun _ => none) "clothing").1
      [("acclim_days", 3)] (Or.inr (by decide)),
    (profile_post_merge_spec (V := ℕ) (fun _ => none) "clothing").2
      [] [] 2 (by decide) (by decide)⟩

/-- C1: evaluating the alerting tail on the bucket sequence
Green, Orange, Orange, Red (each later step within 600 s of the first
nudge) fires exactly one nudge, at the first Orange.  Because handle_iot
stamps last_bucket with the new bucket before the gate runs, the
bucket-changed test never sees a change and the Red transition is
suppressed, against the documented rule that a changed bucket fires. -/
theorem nudge_trace_green_orange_orange_red :
    assess_trace {} [(.green, 10000), (.orange, 10600), (.orange, 10900), (.red, 11100)]
      = [false, true, false, false] := by
  decide

/-- C3 amended: the effective index never falls below ambient Fahrenheit
temperature, and never exceeds the larger of that temperature and the base
heat index plus 12; in particular it stays below base + 12 whenever the
ambient temperature does. -/
theorem hi_eff_clamp_bounds :
    ∀ (ts : ℕ) (temp_c rh : ℝ) (state0 : UserState) (prof : UserProfile)
      (wall : ℕ) (su pf : Bool),
      c_to_f temp_c ≤ (handle_iot ts temp_c rh state0 prof wall su pf).hi_eff ∧
      (handle_iot ts temp_c rh state0 prof wall su pf).hi_eff ≤
        max (c_to_f temp_c) (heat_index_f (c_to_f temp_c) rh + 12) := by
  intro ts temp_c rh state0 prof wall su pf
  have hval : (handle_iot ts temp_c rh state0 prof wall su pf).hi_eff =
      max (c_to_f temp_c)
        (min (heat_index_f (c_to_f temp_c) rh + 12)
          (hi_eff_raw ts temp_c rh state0 prof)) := rfl
  rw [hval]
  exact ⟨le_max_left _ _, max_le_max (le_refl _) (min_le_left _ _)⟩

/-- C3 counterexample: at 0 °C and 0 % humidity the base heat index is
about 16.19 °F, so base + 12 is below the 32 °F ambient temperature, and
the clamp leaves the effective index strictly above base + 12. -/
theorem hi_eff_exceeds_base_plus_12_on_cold_input :
    heat_index_f (c_to_f 0) 0 + 12 <
      (handle_iot 0 0 0 {} default_profile 0 true false).hi_eff := by
  have h1 : c_to_f 0 ≤ (handle_iot 0 0 0 {} default_profile 0 true false).hi_eff :=
    (le_max_left _ _ :
      c_to_f 0 ≤ max (c_to_f 0)
        (min (heat_index_f (c_to_f 0) 0 + 12) (hi_eff_raw 0 0 0 {} default_profile)))
  have h2 : heat_index_f (c_to_f 0) 0 + 12 < c_to_f 0 := by
    norm_num [heat_index_f, c_to_f]
  linarith

/-- The nudge gate touches no state field other than last_nudge_ts. -/
lemma maybe_send_nudge_preserves (b : Bucket) (st : UserState) (wall : ℕ)
    (su pf : Bool) :
    (maybe_send_nudge b st wall su pf).1.in_shade = st.in_shade ∧
    (maybe_send_nudge b st wall su pf).1.exertion_level = st.exertion_level ∧
    (maybe_send_nudge b st wall su pf).1.duration_load = st.duration_load ∧
    (maybe_send_nudge b st wall su pf).1.thermal_load = st.thermal_load ∧
    (maybe_send_nudge b st wall su pf).1.last_update_ts = st.last_update_ts ∧
    (maybe_send_nudge b st wall su pf).1.since_hydration_min = st.since_hydration_min ∧
    (maybe_send_nudge b st wall su pf).1.last_bucket = st.last_bucket ∧
    (maybe_send_nudge b st wall su pf).1.updated_at = st.updated_at ∧
    (maybe_send_nudge b st wall su pf).1.hi_nowcast_f = st.hi_nowcast_f ∧
    (maybe_send_nudge b st wall su pf).1.risk_bucket = st.risk_bucket ∧
    (maybe_send_nudge b st wall su pf).1.next_break_eta_min = st.next_break_eta_min := by
  unfold maybe_send_nudge sns_publish
  dsimp only
  split_ifs <;> exact ⟨rfl, rfl, rfl, rfl, rfl, rfl, rfl, rfl, rfl, rfl, rfl⟩

/-- C8: a publish failure in the alert collaborator is caught: the handler
still returns (and hands to persistence) an updated state, and the run
agrees with the successful-delivery run on the whole risk assessment and
on every state field except possibly the last_nudge_ts stamp. -/
theorem delivery_failure_nonfatal :
    ∀ (ts : ℕ) (temp_c rh : ℝ) (state0 : UserState) (prof : UserProfile)
      (wall : ℕ),
      (handle_iot ts temp_c rh state0 prof wall true true).hi_eff =
        (handle_iot ts temp_c rh state0 prof wall true false).hi_eff ∧
      (handle_iot ts temp_c rh state0 prof wall true true).bucket =
        (handle_iot ts temp_c rh state0 prof wall true false).bucket ∧
      (handle_iot ts temp_c rh state0 prof wall true true).eta =
        (handle_iot ts temp_c rh state0 prof wall true false).eta ∧
      (handle_iot ts temp_c rh state0 prof wall true true).state.in_shade =
        (handle_iot ts temp_c rh state0 prof wall true false).state.in_shade ∧
      (handle_iot ts temp_c rh state0 prof wall true true).state.exertion_level =
        (handle_iot ts temp_c rh state0 prof wall true false).state.exertion_level ∧
      (handle_iot ts temp_c rh state0 prof wall true true).state.duration_load =
        (handle_iot ts temp_c rh state0 prof wall true false).state.duration_load ∧
      (handle_iot ts temp_c rh state0 prof wall true true).state.thermal_load =
        (handle_iot ts temp_c rh state0 prof wall true false).state.thermal_load ∧
      (handle_iot ts temp_c rh state0 prof wall true true).state.last_update_ts =
        (handle_iot ts temp_c rh state0 prof wall true false).state.last_update_ts ∧
      (handle_iot ts temp_c rh state0 prof wall true true).state.since_hydration_min =
        (handle_iot ts temp_c rh state0 prof wall true false).state.since_hydration_min ∧
      (handle_iot ts temp_c rh state0 prof wall true true).state.last_bucket =
        (handle_iot ts temp_c rh state0 prof wall true false).state.last_bucket ∧
      (handle_iot ts temp_c rh state0 prof wall true true).state.updated_at =
        (handle_iot ts temp_c rh state0 prof wall true false).state.updated_at ∧
      (handle_iot ts temp_c rh state0 prof wall true true).state.hi_nowcast_f =
        (handle_iot ts temp_c rh state0 prof wall true false).state.hi_nowcast_f ∧
      (handle_iot ts temp_c rh state0 prof wall true true).state.risk_bucket =
        (handle_iot ts temp_c rh state0 prof wall true false).state.risk_bucket ∧
      (handle_iot ts temp_c rh state0 prof wall true true).state.next_break_eta_min =
        (handle_iot ts temp_c rh state0 prof wall true false).state.next_break_eta_min := by
  intro ts temp_c rh state0 prof wall
  refine ⟨rfl, rfl, rfl, ?_, ?_, ?_, ?_, ?_, ?_, ?_, ?_, ?_, ?_, ?_⟩
  · exact (maybe_send_nudge_preserves _ _ _ _ _).1.trans
      (maybe_send_nudge_preserves _ _ _ _ _).1.symm
  · exact (maybe_send_nudge_preserves _ _ _ _ _).2.1.trans
      (maybe_send_nudge_preserves _ _ _ _ _).2.1.symm
  · exact (maybe_send_nudge_preserves _ _ _ _ _).2.2.1.trans
      (maybe_send_nudge_preserves _ _ _ _ _).2.2.1.symm
  · exact (maybe_send_nudge_preserves _ _ _ _ _).2.2.2.1.trans
      (maybe_send_nudge_preserves _ _ _ _ _).2.2.2.1.symm
  · exact (maybe_send_nudge_preserves _ _ _ _ _).2.2.2.2.1.trans
      (maybe_send_nudge_preserves _ _ _ _ _).2.2.2.2.1.symm
  · exact (maybe_send_nudge_preserves _ _ _ _ _).2.2.2.2.2.1.trans
      (maybe_send_nudge_preserves _ _ _ _ _).2.2.2.2.2.1.symm
  · exact (maybe_send_nudge_preserves _ _ _ _ _).2.2.2.2.2.2.1.trans
      (maybe_send_nudge_preserves _ _ _ _ _).2.2.2.2.2.2.1.symm
  · exact (maybe_send_nudge_preserves _ _ _ _ _).2.2.2.2.2.2.2.1.trans
      (maybe_send_nudge_preserves _ _ _ _ _).2.2.2.2.2.2.2.1.symm
  · exact (maybe_send_nudge_preserves _ _ _ _ _).2.2.2.2.2.2.2.2.1.trans
      (maybe_send_nudge_preserves _ _ _ _ _).2.2.2.2.2.2.2.2.1.symm
  · exact (maybe_send_nudge_preserves _ _ _ _ _).2.2.2.2.2.2.2.2.2.1.trans
      (maybe_send_nudge_preserves _ _ _ _ _).2.2.2.2.2.2.2.2.2.1.symm
  · exact (maybe_send_nudge_preserves _ _ _ _ _).2.2.2.2.2.2.2.2.2.2.trans
      (maybe_send_nudge_preserves _ _ _ _ _).2.2.2.2.2.2.2.2.2.2.symm

/-! C5: loads stay in the unit interval across any call sequence. -/

lemma run_updates_append_single (st : UserState)
    (calls : List (ℕ × ℝ × ℤ × Bool × ℝ)) (a : ℕ × ℝ × ℤ × Bool × ℝ) :
    run_updates st (calls ++ [a]) =
      (update_cumulative_loads (run_updates st calls)
        a.1 a.2.1 a.2.2.1 a.2.2.2.1 a.2.2.2.2).1 := by
  induction calls generalizing st with
  | nil =>
    obtain ⟨ts, hi, ex, sh, w⟩ := a
    rfl
  | cons b rest ih =>
    obtain ⟨ts, hi, ex, sh, w⟩ := b
    simp only [List.cons_append, run_updates]
    exact ih _

lemma update_cumulative_loads_bounds (st : UserState) (ts : ℕ) (hi : ℝ)
    (ex : ℤ) (sh : Bool) (w : ℝ) :
    ∃ d t : ℝ,
      (update_cumulative_loads st ts hi ex sh w).1.duration_load = some d ∧
      (update_cumulative_loads st ts hi ex sh w).1.thermal_load = some t ∧
      0 ≤ d ∧ d ≤ 1 ∧ 0 ≤ t ∧ t ≤ 1 := by
  refine ⟨_, _, rfl, rfl, ?_, ?_, ?_, ?_⟩
  · exact round_dp_nonneg 4 (le_max_left _ _)
  · exact round_dp_le_one 4 (max_le (by norm_num) (min_le_left _ _))
  · exact round_dp_nonneg 4 (le_max_left _ _)
  · exact round_dp_le_one 4 (max_le (by norm_num) (min_le_left _ _))

/-- C5: after every call of a finite sequence of cumulative-load updates,
whatever the timestamps, indices, exertion levels, shade flags and wind
speeds, the stored duration and thermal loads lie in [0, 1]. -/
theorem cumulative_loads_in_unit_interval :
    ∀ (st : UserState) (calls : List (ℕ × ℝ × ℤ × Bool × ℝ))
      (ts : ℕ) (hi : ℝ) (ex : ℤ) (sh : Bool) (w : ℝ),
      ∃ d t : ℝ,
        (run_updates st (calls ++ [(ts, hi, ex, sh, w)])).duration_load = some d ∧
        (run_updates st (calls ++ [(ts, hi, ex, sh, w)])).thermal_load = some t ∧
        0 ≤ d ∧ d ≤ 1 ∧ 0 ≤ t ∧ t ≤ 1 := by
  intro st calls ts hi ex sh w
  rw [run_updates_append_single]
  exact update_cumulative_loads_bounds _ _ _ _ _ _

/-! C2: zero or negative elapsed time is clamped to one second, not zero. -/

/-- C2 counterexample: a repeat sample with the very same timestamp (elapsed
time 0) moves duration_load off 0 toward the exertion target, because the
step is clamped below at 1 second. -/
theorem advance_zero_elapsed_changes_loads :
    (update_cumulative_loads
        { last_update_ts := some 1000, duration_load := some 0,
          thermal_load := some 0, since_hydration_min := some 0 }
        1000 50 5 false 0).1.duration_load ≠ some 0 := by
  have hexp_pos : 0 < Real.exp (-1 / 600 : ℝ) := Real.exp_pos _
  have h1 : (601 : ℝ) / 600 ≤ Real.exp ((1 : ℝ) / 600) := by
    have := Real.add_one_le_exp ((1 : ℝ) / 600)
    linarith
  have hexp_le : Real.exp (-1 / 600 : ℝ) ≤ 600 / 601 := by
    have h2 : Real.exp (-1 / 600 : ℝ) = (Real.exp ((1 : ℝ) / 600))⁻¹ := by
      rw [← Real.exp_neg]
      norm_num
    rw [h2]
    calc (Real.exp ((1 : ℝ) / 600))⁻¹
        ≤ ((601 : ℝ) / 600)⁻¹ := inv_anti₀ (by norm_num) h1
      _ = 600 / 601 := by norm_num
  have key : (update_cumulative_loads
        { last_update_ts := some 1000, duration_load := some 0,
          thermal_load := some 0, since_hydration_min := some 0 }
        1000 50 5 false 0).1.duration_load
      = some (round_dp 4 (1 - Real.exp (-1 / 600 : ℝ))) := by
    simp only [update_cumulative_loads, smooth, Option.getD_some]
    norm_num
    have h0 : (0 : ℝ) < Real.exp (-(1 / 600) : ℝ) := Real.exp_pos _
    rw [min_eq_right (by linarith)]
  rw [key]
  intro hc
  have hval : round_dp 4 (1 - Real.exp (-1 / 600 : ℝ)) = 0 := Option.some_inj.mp hc
  have h16 : (16 : ℤ) ≤ round_half_even ((1 - Real.exp (-1 / 600 : ℝ)) * 10 ^ 4) := by
    refine le_trans (Int.le_floor.mpr ?_) (floor_le_round_half_even _)
    push_cast
    nlinarith
  have hpos : (0 : ℝ) < round_dp 4 (1 - Real.exp (-1 / 600 : ℝ)) := by
    unfold round_dp
    have : (16 : ℝ) ≤ (round_half_even ((1 - Real.exp (-1 / 600 : ℝ)) * 10 ^ 4) : ℝ) := by
      exact_mod_cast h16
    positivity
  rw [hval] at hpos
  exact lt_irrefl 0 hpos

/-- C2 amended: when the new sample's timestamp does not exceed the stored
one, the elapsed time is clamped to one second rather than zero, so the
update is generally not a no-op; the loads are left unchanged exactly in
the fixed-point case where each stored load already equals its current
target and survives the clamp and 4-decimal rounding. -/
theorem advance_nonpositive_elapsed_noop_at_target :
    ∀ (state : UserState) (ts_now : ℕ) (hi : ℝ) (ex : ℤ) (sh : Bool) (w : ℝ)
      (d t : ℝ),
      state.duration_load = some d → state.thermal_load = some t →
      (ts_now : ℤ) ≤ ((state.last_update_ts.getD ts_now : ℕ) : ℤ) →
      d = max 0 (((ex : ℝ) - 2) / 3) →
      t = max 0 ((hi - 95) / 30) →
      d ≤ 1 → t ≤ 1 →
      round_dp 4 d = d → round_dp 4 t = t →
      (update_cumulative_loads state ts_now hi ex sh w).1.duration_load = some d ∧
      (update_cumulative_loads state ts_now hi ex sh w).1.thermal_load = some t := by
  intro state ts_now hi ex sh w d t hd ht _ hdt htt hd1 ht1 hrd hrt
  have hd0 : 0 ≤ d := hdt ▸ le_max_left _ _
  have ht0 : 0 ≤ t := htt ▸ le_max_left _ _
  have hsd : ∀ dts tau : ℝ, smooth d (max 0 (((ex : ℝ) - 2) / 3)) dts tau = d := by
    intro dts tau
    rw [← hdt]
    simp [smooth]
  have hst : ∀ dts tau : ℝ, smooth t (max 0 ((hi - 95) / 30)) dts tau = t := by
    intro dts tau
    rw [← htt]
    simp [smooth]
  constructor
  · show some (round_dp 4 (max 0 (min 1 (smooth (state.duration_load.getD 0) _ _ _)))) = some d
    rw [hd, Option.getD_some, hsd, min_eq_right hd1, max_eq_right hd0, hrd]
  · show some (round_dp 4 (max 0 (min 1 (smooth (state.thermal_load.getD 0) _ _ _)))) = some t
    rw [ht, Option.getD_some, hst, min_eq_right ht1, max_eq_right ht0, hrt]

/-- Witness for C2 amended: loads at their (zero) targets stay unchanged on
a same-timestamp repeat sample. -/
theorem advance_nonpositive_elapsed_noop_witness :
    (update_cumulative_loads
        { last_update_ts := some 1000, duration_load := some 0,
          thermal_load := some 0, since_hydration_min := some 0 }
        1000 95 2 false 0).1.duration_load = some 0 ∧
    (update_cumulative_loads
        { last_update_ts := some 1000, duration_load := some 0,
          thermal_load := some 0, since_hydration_min := some 0 }
        1000 95 2 false 0).1.thermal_load = some 0 := by
  have hr0 : round_dp 4 (0 : ℝ) = 0 := by
    simp [round_dp, round_half_even, Int.fract_zero]
  exact advance_nonpositive_elapsed_noop_at_target _ 1000 95 2 false 0 0 0 rfl rfl
    (by norm_num) (by norm_num) (by norm_num) (by norm_num) (by norm_num) hr0 hr0

/-! C7: the personalization delta formula. -/

/-- C7: for every profile with the data model's nonnegative wind speed, the
personalization step returns the base index plus exactly the five
coefficient-weighted deltas of the specification. -/
theorem personalized_hi_formula :
    ∀ (hi_base : ℝ) (ts : ℕ) (p : UserProfile) (st : UserState),
      0 ≤ p.wind_mps.getD 1 →
      personalized_hi hi_base ts p st =
        hi_base
          + ((p.coeff.getD {}).k_solar).getD 6
              * solar_intensity_factor ts (st.in_shade.getD false)
          - ((p.coeff.getD {}).k_wind).getD 4 * min (p.wind_mps.getD 1) 4 / 4
          + ((p.coeff.getD {}).k_exertion).getD 3
              * ((max 1 (min (st.exertion_level.getD (p.exertion_default.getD 2)) 5) - 2 : ℤ) : ℝ) / 3
          + ((p.coeff.getD {}).k_acclim).getD (-2)
              * ((min (max (p.acclim_days.getD 0) 0) 14 : ℤ) : ℝ) / 14
          + ((p.coeff.getD {}).k_clothing).getD 2
              * clothing_factor (p.clothing.getD "normal") := by
  intro hi_base ts p st hw
  simp only [personalized_hi]
  rw [max_eq_left hw]
  ring

/-- Witness for C7 at the default profile and a fresh state. -/
theorem personalized_hi_formula_witness :
    personalized_hi 100 0 default_profile {} =
      100
        + ((default_profile.coeff.getD {}).k_solar).getD 6
            * solar_intensity_factor 0 (({} : UserState).in_shade.getD false)
        - ((default_profile.coeff.getD {}).k_wind).getD 4
            * min (default_profile.wind_mps.getD 1) 4 / 4
        + ((default_profile.coeff.getD {}).k_exertion).getD 3
            * ((max 1 (min (({} : UserState).exertion_level.getD
                (default_profile.exertion_default.getD 2)) 5) - 2 : ℤ) : ℝ) / 3
        + ((default_profile.coeff.getD {}).k_acclim).getD (-2)
            * ((min (max (default_profile.acclim_days.getD 0) 0) 14 : ℤ) : ℝ) / 14
        + ((default_profile.coeff.getD {}).k_clothing).getD 2
            * clothing_factor (default_profile.clothing.getD "normal") :=
  personalized_hi_formula 100 0 default_profile {} (by simp [default_profile])

/-! C4: heavier clothing versus lighter clothing. -/

lemma clothing_factor_light : clothing_factor "light" = 0 := by
  unfold clothing_factor
  rw [if_pos rfl]

lemma clothing_factor_heavy : clothing_factor "heavy" = 1 := by
  unfold clothing_factor
  rw [if_neg (by decide), if_neg (by decide), if_pos rfl]

/-- Switching an all-else-equal profile from light to heavy clothing shifts
the pre-clamp effective index by exactly the clothing coefficient. -/
lemma hi_eff_raw_clothing_diff (ts : ℕ) (temp_c rh : ℝ) (st : UserState)
    (p : UserProfile) (hl : p.clothing = some "light") :
    hi_eff_raw ts temp_c rh st { p with clothing := some "heavy" } =
      hi_eff_raw ts temp_c rh st p + ((p.coeff.getD {}).k_clothing).getD 2 := by
  simp only [hi_eff_raw, personalized_hi, hl, Option.getD_some,
    clothing_factor_light, clothing_factor_heavy]
  ring

/-- C4 amended: with a positive clothing coefficient, heavy clothing never
lowers the effective index, and raises it strictly whenever neither run is
cut off by the final clamp (the light run is at or above ambient
temperature before clamping, the heavy run at or below base + 12). -/
theorem clothing_heavy_ge_light :
    ∀ (ts : ℕ) (temp_c rh : ℝ) (st : UserState) (p : UserProfile)
      (wall : ℕ) (su pf : Bool),
      p.clothing = some "light" →
      0 < ((p.coeff.getD {}).k_clothing).getD 2 →
      ((handle_iot ts temp_c rh st p wall su pf).hi_eff ≤
        (handle_iot ts temp_c rh st { p with clothing := some "heavy" }
          wall su pf).hi_eff) ∧
      (c_to_f temp_c ≤ hi_eff_raw ts temp_c rh st p →
        hi_eff_raw ts temp_c rh st { p with clothing := some "heavy" } ≤
          heat_index_f (c_to_f temp_c) rh + 12 →
        (handle_iot ts temp_c rh st p wall su pf).hi_eff <
          (handle_iot ts temp_c rh st { p with clothing := some "heavy" }
            wall su pf).hi_eff) := by
  intro ts temp_c rh st p wall su pf hl hk
  have hdiff := hi_eff_raw_clothing_diff ts temp_c rh st p hl
  have hLe : (handle_iot ts temp_c rh st p wall su pf).hi_eff
      = max (c_to_f temp_c) (min (heat_index_f (c_to_f temp_c) rh + 12)
          (hi_eff_raw ts temp_c rh st p)) := rfl
  have hHe : (handle_iot ts temp_c rh st { p with clothing := some "heavy" }
        wall su pf).hi_eff
      = max (c_to_f temp_c) (min (heat_index_f (c_to_f temp_c) rh + 12)
          (hi_eff_raw ts temp_c rh st { p with clothing := some "heavy" })) := rfl
  constructor
  · rw [hLe, hHe, hdiff]
    exact max_le_max le_rfl (min_le_min le_rfl (by linarith))
  · intro hlow hhigh
    rw [hdiff] at hhigh
    rw [hLe, hHe, hdiff]
    rw [min_eq_right (show hi_eff_raw ts temp_c rh st p ≤
          heat_index_f (c_to_f temp_c) rh + 12 by linarith),
      max_eq_right hlow,
      min_eq_right (by linarith),
      max_eq_right (by linarith)]
    linarith

/-- A probe coefficient dict: only exertion and clothing weights nonzero,
so every term holding a smoothing or solar value is weighted by zero. -/
def coeffs_probe : Coeffs :=
  { k_solar := some 0, k_wind := some 0, k_exertion := some 30,
    k_acclim := some 0, k_clothing := some 1, k_duration := some 0,
    k_thermal := some 0, k_dehyd := some 0 }

/-- A light-clothing probe profile driving the pre-clamp index 30 °F above
base, far past the +12 clamp ceiling. -/
def profile_light : UserProfile :=
  { exertion_default := some 5, acclim_days := some 0,
    clothing := some "light", wind_mps := some 0, coeff := some coeffs_probe }

lemma hi_eff_raw_probe_light :
    hi_eff_raw 0 40 50 {} profile_light = heat_index_f (c_to_f 40) 50 + 30 := by
  simp only [hi_eff_raw, personalized_hi, update_cumulative_loads, profile_light,
    coeffs_probe, Option.getD_some, Option.getD_none, clothing_factor_light]
  norm_num

lemma hi_eff_raw_probe_heavy :
    hi_eff_raw 0 40 50 {} { profile_light with clothing := some "heavy" } =
      heat_index_f (c_to_f 40) 50 + 31 := by
  rw [hi_eff_raw_clothing_diff 0 40 50 {} profile_light rfl, hi_eff_raw_probe_light]
  simp only [profile_light, coeffs_probe, Option.getD_some]
  ring

/-- C4 counterexample: with both pre-clamp values beyond base + 12, the
clamp maps the heavy-clothing and light-clothing runs to the same
effective index, so the heavy run is not strictly greater. -/
theorem clothing_heavy_equals_light_at_saturation :
    ¬ ((handle_iot 0 40 50 {} profile_light 0 true false).hi_eff <
       (handle_iot 0 40 50 {} { profile_light with clothing := some "heavy" }
         0 true false).hi_eff) := by
  have hL : (handle_iot 0 40 50 {} profile_light 0 true false).hi_eff
      = max (c_to_f 40) (min (heat_index_f (c_to_f 40) 50 + 12)
          (hi_eff_raw 0 40 50 {} profile_light)) := rfl
  have hH : (handle_iot 0 40 50 {} { profile_light with clothing := some "heavy" }
        0 true false).hi_eff
      = max (c_to_f 40) (min (heat_index_f (c_to_f 40) 50 + 12)
          (hi_eff_raw 0 40 50 {} { profile_light with clothing := some "heavy" })) := rfl
  rw [hL, hH, hi_eff_raw_probe_light, hi_eff_raw_probe_heavy,
    min_eq_left (by linarith), min_eq_left (by linarith)]
  exact lt_irrefl _

/-- A clothing-only probe profile: the sole nonzero weight is a unit
clothing coefficient, so the pre-clamp index is exactly the base index
(light) or base + 1 (heavy), inside the clamp window at 40 °C / 50 %. -/
def coeffs_cloth_only : Coeffs :=
  { k_solar := some 0, k_wind := some 0, k_exertion := some 0,
    k_acclim := some 0, k_clothing := some 1, k_duration := some 0,
    k_thermal := some 0, k_dehyd := some 0 }

def profile_cloth_light : UserProfile :=
  { exertion_default := some 2, acclim_days := some 0,
    clothing := some "light", wind_mps := some 0, coeff := some coeffs_cloth_only }

lemma hi_eff_raw_cloth_light_eval :
    hi_eff_raw 0 40 50 {} profile_cloth_light = heat_index_f (c_to_f 40) 50 := by
  simp only [hi_eff_raw, personalized_hi, update_cumulative_loads,
    profile_cloth_light, coeffs_cloth_only, Option.getD_some, Option.getD_none,
    clothing_factor_light]
  norm_num

/-- Witness for C4 amended: inside the clamp window, heavy clothing gives a
strictly larger effective index than light clothing. -/
theorem clothing_heavy_gt_light_witness :
    (handle_iot 0 40 50 {} profile_cloth_light 0 true false).hi_eff <
    (handle_iot 0 40 50 {} { profile_cloth_light with clothing := some "heavy" }
      0 true false).hi_eff := by
  refine (clothing_heavy_ge_light 0 40 50 {} profile_cloth_light 0 true false
    rfl ?_).2 ?_ ?_
  · norm_num [profile_cloth_light, coeffs_cloth_only]
  · rw [hi_eff_raw_cloth_light_eval]
    norm_num [heat_index_f, c_to_f]
  · rw [hi_eff_raw_clothing_diff 0 40 50 {} profile_cloth_light rfl,
      hi_eff_raw_cloth_light_eval]
    norm_num [profile_cloth_light, coeffs_cloth_only]

end HeatShield
